import Mathlib

set_option maxHeartbeats 1000000

/-!
Shallow embedding of the scene/object lifecycle and GPU-resource management
core of the `byd-rs` rendering engine, translated from `src/scene.rs`,
`src/material.rs` and `src/window.rs`.

Modelling conventions:
* GPU calls (buffer writes, bind group setting, draw calls, mount/unmount
  hooks) are recorded as events in a trace; a render that would panic in
  Rust (out-of-bounds vector index) is modelled as `Option.none`.
* The process-global atomic counter `NEXT_ID` (scene.rs:22) is threaded
  through the `Scene` state as the field `nextId`.
* `HashMap<ObjectID, Box<dyn SceneObject>>` is modelled as an association
  list with distinct keys; `HashSet<ObjectID>` as a duplicate-free list
  (insertion adds an element only when absent, as `HashSet::insert` does).
* Trait objects with `downcast_ref`/`downcast_mut` (downcast-rs) are
  modelled by a tagged dependent pair `Obj Tag Data`: the downcast to a
  concrete type `T` succeeds exactly when the stored tag equals `T`.
* `u32`/`u64` machine arithmetic is `Nat` with explicit reduction modulo
  `2 ^ 32` where the code truncates (`as wgpu::DynamicOffset`).
-/

namespace Byd

/-- ObjectID, scene.rs:21: `pub type ObjectID = usize`. -/
abbrev ObjectID := Nat

/-- scene.rs:19: `const MAX_ACTORS: u64 = 2048`. -/
def MAX_ACTORS : Nat := 2048

/-- Modulus of the 32-bit `wgpu::DynamicOffset` type. -/
def U32_MOD : Nat := 2 ^ 32

/-- RGBA color (color.rs); component values are irrelevant to the claims,
they are carried as exact rationals. -/
structure Color where
  r : Rat
  g : Rat
  b : Rat
  a : Rat
deriving DecidableEq

def Color.new (r g b a : Rat) : Color := ⟨r, g, b, a⟩

/-- The closed material variant set of `material.rs`: `BasicMaterial`,
`LineMaterial`, `TextureMaterial`, `CustomMaterial`. -/
inductive Material where
  | basic (color : Color)
  | line
  | texture (texture_id : Nat)
  | custom (program_id : Nat)
deriving DecidableEq

/-- A boxed `dyn SceneObject` (scene.rs:24): a dynamically typed payload
(`tag`, `data`) supporting downcast, plus the `material()` accessor result
(`None` for the trait default implementation, scene.rs:31). -/
structure Obj (Tag : Type) (Data : Tag → Type) where
  tag : Tag
  data : Data tag
  material : Option Material

/-- scene.rs:372: `BasicMaterial::new(Color::new(1.0, 0.0, 0.0, 1.0))`,
substituted when `object.material()` returns `None`. -/
def defaultMaterial : Material := .basic (Color.new 1 0 0 1)

/-- scene.rs:374: `object.material().unwrap_or(&default_material)`. -/
def Obj.materialOf {Tag : Type} {Data : Tag → Type} (o : Obj Tag Data) : Material :=
  o.material.getD defaultMaterial

/-- `HashMap::get` on the association-list model of the objects map. -/
def lookupA {Tag : Type} {Data : Tag → Type} :
    List (ObjectID × Obj Tag Data) → ObjectID → Option (Obj Tag Data)
  | [], _ => none
  | (k, v) :: rest, id => if k = id then some v else lookupA rest id

/-- `HashMap::contains_key`. -/
def containsA {Tag : Type} {Data : Tag → Type}
    (l : List (ObjectID × Obj Tag Data)) (id : ObjectID) : Bool :=
  (lookupA l id).isSome

/-- `HashMap::remove`: drops the entry with the given key. -/
def removeA {Tag : Type} {Data : Tag → Type}
    (l : List (ObjectID × Obj Tag Data)) (id : ObjectID) :
    List (ObjectID × Obj Tag Data) :=
  l.filter (fun p => decide (p.1 ≠ id))

/-- `HashMap::insert`: replaces the value when the key is present,
otherwise adds a fresh entry. -/
def insertA {Tag : Type} {Data : Tag → Type}
    (l : List (ObjectID × Obj Tag Data)) (id : ObjectID) (o : Obj Tag Data) :
    List (ObjectID × Obj Tag Data) :=
  if containsA l id then l.map (fun p => if p.1 = id then (id, o) else p)
  else l ++ [(id, o)]

/-- `HashSet::insert`: adds the id only when absent. -/
def insertS (l : List ObjectID) (id : ObjectID) : List ObjectID :=
  if id ∈ l then l else l ++ [id]

/-- scene.rs:224-233, `SceneUniforms::set_actor`: the byte offset of the
uniform write, `(index * uniform_alignment) as wgpu::DynamicOffset`
(the `u64` product truncated to `u32`). -/
def set_actor_offset (index alignment : Nat) : Nat :=
  index * alignment % U32_MOD

/-- scene.rs:235-242, `SceneUniforms::bind_actor`: the dynamic offset
passed to `set_bind_group`, computed exactly as in `set_actor`. -/
def bind_actor_offset (index alignment : Nat) : Nat :=
  index * alignment % U32_MOD

/-- scene.rs:247: the dynamic offset used by `bind_texture`,
`(if index == 0 { 0 } else { 1 }) * uniform_alignment` truncated. -/
def bind_texture_offset (index alignment : Nat) : Nat :=
  (if index = 0 then 0 else 1) * alignment % U32_MOD

/-- scene.rs:244-251, `SceneUniforms::bind_texture`: indexes
`self.texture_bind_groups[index]` with no bounds check; an index not below
the vector length panics, modelled as `none`.  `nTex` is the length of
`texture_bind_groups`. -/
def bind_texture (nTex index alignment : Nat) : Option Nat :=
  if index < nTex then some (bind_texture_offset index alignment) else none

/-- scene.rs:253-282, `SceneUniforms::add_texture`: pushes the new bind
group onto `texture_bind_groups` and returns `len() + 1` where `len()` is
the length before the push. -/
def add_texture {τ : Type} (texture_bind_groups : List τ) (bg : τ) : List τ × Nat :=
  let id := texture_bind_groups.length + 1
  (texture_bind_groups ++ [bg], id)

/-- One observable GPU-side action of `Scene::render`, in program order.
`setActor`/`bindActor` target the `SceneUniforms` actor buffer,
`setDebugActor`/`bindDebugActor` the `DebugUniforms` one;
`writeCamera` is the `SceneUniforms` camera-buffer write and
`writeDebugCamera` the `DebugUniforms` one. -/
inductive Event where
  | mount (id : ObjectID)
  | unmount (id : ObjectID)
  | writeCamera
  | writeDebugCamera
  | setActor (id : ObjectID) (offset : Nat)
  | bindActor (id : ObjectID) (offset : Nat)
  | bindTexture (index : Nat)
  | setDebugActor (id : ObjectID) (offset : Nat)
  | bindDebugActor (id : ObjectID) (offset : Nat)
  | draw (id : ObjectID)
deriving DecidableEq

/-- The `Scene` state (scene.rs:285-293).  `uniforms` mirrors
`Option<SceneUniforms>`, retaining the only datum the claims inspect: the
length of `texture_bind_groups`.  `textureQueue` is the length of the
pending `texture_queue`, and `nextId` threads the global `NEXT_ID`. -/
structure Scene (Tag : Type) (Data : Tag → Type) where
  objects : List (ObjectID × Obj Tag Data)
  uniforms : Option Nat
  debugUniformsCreated : Bool
  added : List ObjectID
  removed : List ObjectID
  textureQueue : Nat
  nextId : Nat

/-- scene.rs:296-312, `Scene::new`: empty maps and sets, no uniforms yet,
the built-in 1x1 placeholder image already pushed onto the texture queue.
`nextId` starts at 1 as `NEXT_ID` does (scene.rs:22). -/
def Scene.new (Tag : Type) (Data : Tag → Type) : Scene Tag Data :=
  { objects := []
    uniforms := none
    debugUniformsCreated := false
    added := []
    removed := []
    textureQueue := 1
    nextId := 1 }

/-- scene.rs:423-431, `Scene::add`: `NEXT_ID.fetch_add(1)` yields the id,
the object is inserted into the map and the id into the `added` set. -/
def Scene.add {Tag : Type} {Data : Tag → Type}
    (s : Scene Tag Data) (o : Obj Tag Data) : ObjectID × Scene Tag Data :=
  let id := s.nextId
  (id,
    { s with
      nextId := s.nextId + 1
      objects := insertA s.objects id o
      added := insertS s.added id })

/-- scene.rs:433-435, `Scene::get`. -/
def Scene.get {Tag : Type} {Data : Tag → Type}
    (s : Scene Tag Data) (id : ObjectID) : Option (Obj Tag Data) :=
  lookupA s.objects id

/-- scene.rs:441-445, `Scene::remove`: marks the id as removed only when
it is currently a key of the objects map. -/
def Scene.remove {Tag : Type} {Data : Tag → Type}
    (s : Scene Tag Data) (id : ObjectID) : Scene Tag Data :=
  if containsA s.objects id then { s with removed := insertS s.removed id }
  else s

/-- Number of texture bind groups currently held by `self.uniforms`
(zero when the uniforms have not been created yet). -/
def Scene.texCount {Tag : Type} {Data : Tag → Type} (s : Scene Tag Data) : Nat :=
  match s.uniforms with
  | some n => n
  | none => 0

/-- scene.rs:322-337, `Scene::process_texture_queue`: when the uniforms
exist, drains the queue, each image adding one texture bind group. -/
def Scene.processTextureQueue {Tag : Type} {Data : Tag → Type}
    (s : Scene Tag Data) : Scene Tag Data :=
  match s.uniforms with
  | none => s
  | some n => { s with uniforms := some (n + s.textureQueue), textureQueue := 0 }

/-- scene.rs:447-455, `Scene::with_object`: looks the id up, downcasts to
the expected type `T` and invokes the handler only when both succeed.  The
returned flag records whether the handler ran (the Rust function returns
nothing; the flag is the ghost observation the claims are about). -/
def Scene.withObject {Tag : Type} {Data : Tag → Type} [DecidableEq Tag]
    (s : Scene Tag Data) (T : Tag) (id : ObjectID) : Bool :=
  match lookupA s.objects id with
  | none => false
  | some o => if o.tag = T then true else false

/-- scene.rs:457-465, `Scene::with_object_mut`: as `with_object`, but on
success the handler mutates the stored object in place.  Returns the new
scene and whether the handler ran. -/
def Scene.withObjectMut {Tag : Type} {Data : Tag → Type} [DecidableEq Tag]
    (s : Scene Tag Data) (T : Tag) (id : ObjectID) (handler : Data T → Data T) :
    Scene Tag Data × Bool :=
  match lookupA s.objects id with
  | none => (s, false)
  | some o =>
    if h : o.tag = T then
      ({ s with objects := insertA s.objects id ⟨T, handler (h ▸ o.data), o.material⟩ },
        true)
    else (s, false)

/-- scene.rs:355-359: the loop draining the `added` set; `mount` is called
for each drained id still present in the objects map. -/
def drainAdded {Tag : Type} {Data : Tag → Type}
    (objects : List (ObjectID × Obj Tag Data)) : List ObjectID → List Event
  | [] => []
  | id :: rest =>
    if containsA objects id then Event.mount id :: drainAdded objects rest
    else drainAdded objects rest

/-- scene.rs:362-366: the loop draining the `removed` set; each id present
in the map is removed from it and its object unmounted. -/
def drainRemoved {Tag : Type} {Data : Tag → Type}
    (objects : List (ObjectID × Obj Tag Data)) :
    List ObjectID → List (ObjectID × Obj Tag Data) × List Event
  | [] => (objects, [])
  | id :: rest =>
    if containsA objects id then
      let r := drainRemoved (removeA objects id) rest
      (r.1, Event.unmount id :: r.2)
    else drainRemoved objects rest

/-- scene.rs:375-419: the three `downcast_ref` branches of the draw-loop
body, dispatching on the material variant.  Note that the index handed to
`set_actor`/`bind_actor` is `*id as _`, the `ObjectID` itself.  A
`CustomMaterial` matches none of the three downcasts and draws nothing.
The `Option.map` over `bind_texture` propagates its out-of-bounds panic
(as `none`). -/
def drawMaterial (alignment nTex : Nat) (id : ObjectID) : Material → Option (List Event)
  | .basic _ =>
    (bind_texture nTex 0 alignment).map fun _ =>
      [Event.setActor id (set_actor_offset id alignment),
        Event.bindActor id (bind_actor_offset id alignment),
        Event.bindTexture 0, Event.draw id]
  | .texture tid =>
    (bind_texture nTex tid alignment).map fun _ =>
      [Event.setActor id (set_actor_offset id alignment),
        Event.bindActor id (bind_actor_offset id alignment),
        Event.bindTexture tid, Event.draw id]
  | .line =>
    some [Event.setDebugActor id (set_actor_offset id alignment),
      Event.bindDebugActor id (bind_actor_offset id alignment),
      Event.draw id]
  | .custom _ => some []

/-- scene.rs:373-420: the per-object body of the draw loop, with the
default material (`BasicMaterial`, red) substituted when the object has
none. -/
def drawObject {Tag : Type} {Data : Tag → Type}
    (alignment nTex : Nat) (id : ObjectID) (o : Obj Tag Data) : Option (List Event) :=
  drawMaterial alignment nTex id o.materialOf

/-- The draw loop over the whole objects map, concatenating per-object
events; a panic in any object aborts the render. -/
def drawObjects {Tag : Type} {Data : Tag → Type} (alignment nTex : Nat) :
    List (ObjectID × Obj Tag Data) → Option (List Event)
  | [] => some []
  | (id, o) :: rest =>
    match drawObject alignment nTex id o with
    | none => none
    | some evs =>
      match drawObjects alignment nTex rest with
      | none => none
      | some evsRest => some (evs ++ evsRest)

/-- scene.rs:339-421, `Scene::render`.  `alignment` is the device-reported
`min_uniform_buffer_offset_alignment`.  The uniforms are created lazily
(`get_or_insert_with`, with an empty `texture_bind_groups` when fresh);
if no texture bind group exists the function returns at once
(scene.rs:350-352).  Otherwise it drains `added` (mount), drains `removed`
(unmount and drop from the map), writes both camera buffers once, then
draws every object in the map. -/
def Scene.render {Tag : Type} {Data : Tag → Type}
    (alignment : Nat) (s : Scene Tag Data) : Option (Scene Tag Data × List Event) :=
  let nTex := s.texCount
  let s0 : Scene Tag Data := { s with uniforms := some nTex, debugUniformsCreated := true }
  if nTex = 0 then some (s0, [])
  else
    let mountEvents := drainAdded s0.objects s0.added
    let dr := drainRemoved s0.objects s0.removed
    let s1 : Scene Tag Data := { s0 with objects := dr.1, added := [], removed := [] }
    match drawObjects alignment nTex s1.objects with
    | none => none
    | some drawEvents =>
      some (s1,
        mountEvents ++ dr.2
          ++ Event.writeCamera :: Event.writeDebugCamera :: drawEvents)

/-- The error type of `swap_chain.get_current_frame()` handled by the frame
loop (window.rs:200-208). -/
inductive SwapChainError where
  | Lost
  | OutOfMemory
  | Outdated
  | Timeout
deriving DecidableEq

/-- Outcome of one `RedrawRequested` iteration of the frame loop. -/
inductive FrameOutcome where
  | proceed
  | resizeAndRetry
  | terminate
  | logAndSkip
deriving DecidableEq

/-- window.rs:200-208: the match on `state.render(&mut app)`.  `Ok` does
nothing; `Lost` calls `state.resize(state.size)` and (like every non-exit
arm) falls through to `window.request_redraw()`, retrying next frame;
`OutOfMemory` sets `ControlFlow::Exit`; any other error is printed and the
frame skipped. -/
def handleRenderResult : Except SwapChainError Unit → FrameOutcome
  | .ok _ => .proceed
  | .error .Lost => .resizeAndRetry
  | .error .OutOfMemory => .terminate
  | .error _ => .logAndSkip

/-- An externally issued scene operation, for whole-history statements. -/
inductive Op (Tag : Type) (Data : Tag → Type) where
  | add (o : Obj Tag Data)
  | remove (id : ObjectID)

/-- Runs a sequence of `add`/`remove` calls, collecting the ids the `add`
calls return, in order. -/
def runOps {Tag : Type} {Data : Tag → Type} (s : Scene Tag Data) :
    List (Op Tag Data) → Scene Tag Data × List ObjectID
  | [] => (s, [])
  | Op.add o :: rest =>
    let r := s.add o
    let rr := runOps r.2 rest
    (rr.1, r.1 :: rr.2)
  | Op.remove id :: rest => runOps (s.remove id) rest

/-- Predicate: the event is a `mount` call. -/
def Event.isMount : Event → Bool
  | .mount _ => true
  | _ => false

/-- Predicate: the event is an `unmount` call. -/
def Event.isUnmount : Event → Bool
  | .unmount _ => true
  | _ => false

/-- Predicate: the event is a mount or unmount (GPU resource lifecycle). -/
def Event.isLifecycle (e : Event) : Bool := e.isMount || e.isUnmount

/-- Predicate: the event belongs to the per-object draw loop. -/
def Event.isDrawPhase : Event → Bool
  | .setActor _ _ => true
  | .bindActor _ _ => true
  | .bindTexture _ => true
  | .setDebugActor _ _ => true
  | .bindDebugActor _ _ => true
  | .draw _ => true
  | _ => false

/-! ### Helper lemmas on the container models -/

theorem insertS_mem_self (l : List ObjectID) (id : ObjectID) : id ∈ insertS l id := by
  unfold insertS
  split
  · assumption
  · simp

theorem insertS_of_mem {l : List ObjectID} {id : ObjectID} (h : id ∈ l) :
    insertS l id = l := by
  simp [insertS, h]

theorem insertS_of_not_mem {l : List ObjectID} {id : ObjectID} (h : id ∉ l) :
    insertS l id = l ++ [id] := by
  simp [insertS, h]

theorem insertS_idem (l : List ObjectID) (id : ObjectID) :
    insertS (insertS l id) id = insertS l id :=
  insertS_of_mem (insertS_mem_self l id)

theorem containsA_eq_false {Tag : Type} {Data : Tag → Type}
    {l : List (ObjectID × Obj Tag Data)} {id : ObjectID}
    (h : lookupA l id = none) : containsA l id = false := by
  simp [containsA, h]

theorem lookupA_eq_none {Tag : Type} {Data : Tag → Type}
    {l : List (ObjectID × Obj Tag Data)} {id : ObjectID}
    (h : containsA l id = false) : lookupA l id = none := by
  have := h
  unfold containsA at this
  cases hl : lookupA l id
  · rfl
  · rw [hl] at this
    simp at this

theorem lookupA_removeA {Tag : Type} {Data : Tag → Type}
    (l : List (ObjectID × Obj Tag Data)) (a id : ObjectID) :
    lookupA (removeA l a) id = if id = a then none else lookupA l id := by
  induction l with
  | nil => simp [removeA, lookupA]
  | cons p rest ih =>
    obtain ⟨k, v⟩ := p
    by_cases hka : k = a
    · have hrw : removeA ((k, v) :: rest) a = removeA rest a := by
        simp [removeA, List.filter_cons, hka]
      rw [hrw, ih]
      by_cases hid : id = a
      · simp [hid]
      · have hkid : ¬ k = id := fun hcon => hid (hcon ▸ hka)
        simp [hid, lookupA, hkid]
    · have hrw : removeA ((k, v) :: rest) a = (k, v) :: removeA rest a := by
        simp [removeA, List.filter_cons, hka]
      rw [hrw]
      by_cases hid : id = a
      · subst hid
        have hkid : ¬ k = id := hka
        simp [lookupA, hkid, ih]
      · unfold lookupA
        by_cases hk : k = id
        · simp [hk, hid]
        · simp [hk, ih, hid]

theorem containsA_removeA {Tag : Type} {Data : Tag → Type}
    (l : List (ObjectID × Obj Tag Data)) (a id : ObjectID) :
    containsA (removeA l a) id = if id = a then false else containsA l id := by
  unfold containsA
  rw [lookupA_removeA]
  by_cases hid : id = a <;> simp [hid]

theorem lookupA_some_mem {Tag : Type} {Data : Tag → Type}
    {l : List (ObjectID × Obj Tag Data)} {id : ObjectID} {o : Obj Tag Data}
    (h : lookupA l id = some o) : (id, o) ∈ l := by
  induction l with
  | nil => simp [lookupA] at h
  | cons p rest ih =>
    obtain ⟨k, v⟩ := p
    unfold lookupA at h
    by_cases hk : k = id
    · rw [if_pos hk] at h
      cases h
      subst hk
      exact List.mem_cons_self _ _
    · rw [if_neg hk] at h
      exact List.mem_cons_of_mem _ (ih h)

theorem lookupA_append_of_none {Tag : Type} {Data : Tag → Type}
    {l₁ : List (ObjectID × Obj Tag Data)} (l₂ : List (ObjectID × Obj Tag Data))
    {id : ObjectID} (h : lookupA l₁ id = none) :
    lookupA (l₁ ++ l₂) id = lookupA l₂ id := by
  induction l₁ with
  | nil => simp
  | cons p rest ih =>
    obtain ⟨k, v⟩ := p
    simp only [lookupA, List.cons_append] at h ⊢
    by_cases hk : k = id
    · rw [if_pos hk] at h
      exact absurd h (by simp)
    · rw [if_neg hk] at h ⊢
      exact ih h

theorem lookupA_drainRemoved {Tag : Type} {Data : Tag → Type}
    (objs : List (ObjectID × Obj Tag Data)) (l : List ObjectID) (id : ObjectID) :
    lookupA (drainRemoved objs l).1 id = if id ∈ l then none else lookupA objs id := by
  induction l generalizing objs with
  | nil => simp [drainRemoved]
  | cons a rest ih =>
    cases hc : containsA objs a with
    | false =>
      have hrw : drainRemoved objs (a :: rest) = drainRemoved objs rest := by
        simp [drainRemoved, hc]
      rw [hrw, ih]
      by_cases hid : id = a
      · subst hid
        by_cases hm : id ∈ rest <;> simp [hm, lookupA_eq_none hc]
      · simp [List.mem_cons, hid]
    | true =>
      have hrw : (drainRemoved objs (a :: rest)).1 = (drainRemoved (removeA objs a) rest).1 := by
        simp [drainRemoved, hc]
      rw [hrw, ih, lookupA_removeA]
      by_cases hid : id = a
      · subst hid
        by_cases hm : id ∈ rest <;> simp [hm]
      · simp [hid, List.mem_cons]

theorem drainAdded_all_mount {Tag : Type} {Data : Tag → Type}
    (objs : List (ObjectID × Obj Tag Data)) (l : List ObjectID) :
    ∀ e ∈ drainAdded objs l, e.isMount = true := by
  induction l with
  | nil => simp [drainAdded]
  | cons a rest ih =>
    cases hc : containsA objs a with
    | false => simpa [drainAdded, hc] using ih
    | true =>
      intro e he
      simp only [drainAdded, hc, if_true, List.mem_cons] at he
      rcases he with rfl | he
      · rfl
      · exact ih e he

theorem drainRemoved_all_unmount {Tag : Type} {Data : Tag → Type}
    (objs : List (ObjectID × Obj Tag Data)) (l : List ObjectID) :
    ∀ e ∈ (drainRemoved objs l).2, e.isUnmount = true := by
  induction l generalizing objs with
  | nil => simp [drainRemoved]
  | cons a rest ih =>
    cases hc : containsA objs a with
    | false => simpa [drainRemoved, hc] using ih objs
    | true =>
      intro e he
      simp only [drainRemoved, hc, if_true, List.mem_cons] at he
      rcases he with rfl | he
      · rfl
      · exact ih (removeA objs a) e he

theorem drawObject_events_drawPhase {Tag : Type} {Data : Tag → Type}
    {alignment nTex : Nat} {id : ObjectID} {o : Obj Tag Data} {evs : List Event}
    (h : drawObject alignment nTex id o = some evs) :
    ∀ e ∈ evs, e.isDrawPhase = true := by
  unfold drawObject at h
  cases hm : o.materialOf <;> rw [hm] at h <;> simp only [drawMaterial] at h
  case basic c =>
    cases hb : bind_texture nTex 0 alignment <;> rw [hb] at h <;> simp at h
    subst h
    intro e he
    simp at he
    rcases he with rfl | rfl | rfl | rfl <;> rfl
  case line =>
    cases h
    intro e he
    simp at he
    rcases he with rfl | rfl | rfl <;> rfl
  case texture tid =>
    cases hb : bind_texture nTex tid alignment <;> rw [hb] at h <;> simp at h
    subst h
    intro e he
    simp at he
    rcases he with rfl | rfl | rfl | rfl <;> rfl
  case custom pid =>
    cases h
    intro e he
    simp at he

theorem drawObjects_events_drawPhase {Tag : Type} {Data : Tag → Type}
    {alignment nTex : Nat} {l : List (ObjectID × Obj Tag Data)} {evs : List Event}
    (h : drawObjects alignment nTex l = some evs) :
    ∀ e ∈ evs, e.isDrawPhase = true := by
  induction l generalizing evs with
  | nil =>
    cases h
    simp
  | cons p rest ih =>
    obtain ⟨pid, po⟩ := p
    unfold drawObjects at h
    cases hdo : drawObject alignment nTex pid po <;> rw [hdo] at h
    · exact absurd h (by simp)
    case some evs₁ =>
      cases hrest : drawObjects alignment nTex rest <;> rw [hrest] at h
      · exact absurd h (by simp)
      case some evs₂ =>
        cases h
        intro e he
        rcases List.mem_append.mp he with h1 | h2
        · exact drawObject_events_drawPhase hdo e h1
        · exact ih hrest e h2

theorem drawObjects_none_of_mem {Tag : Type} {Data : Tag → Type}
    (alignment nTex : Nat) {l : List (ObjectID × Obj Tag Data)}
    {id : ObjectID} {o : Obj Tag Data}
    (hmem : (id, o) ∈ l) (hfail : drawObject alignment nTex id o = none) :
    drawObjects alignment nTex l = none := by
  induction l with
  | nil => simp at hmem
  | cons p rest ih =>
    rcases List.mem_cons.mp hmem with heq | hmem'
    · subst heq
      simp [drawObjects, hfail]
    · obtain ⟨pid, po⟩ := p
      unfold drawObjects
      cases hdo : drawObject alignment nTex pid po
      · rfl
      · rw [ih hmem']

theorem drawObject_texture_oob {Tag : Type} {Data : Tag → Type}
    {alignment nTex : Nat} {id tid : Nat} {o : Obj Tag Data}
    (hm : o.material = some (Material.texture tid)) (hoob : nTex ≤ tid) :
    drawObject alignment nTex id o = none := by
  have hmat : o.materialOf = Material.texture tid := by simp [Obj.materialOf, hm]
  unfold drawObject
  rw [hmat]
  simp [drawMaterial, bind_texture, Nat.not_lt.mpr hoob]

/-! ### Claim theorems (first batch) -/

/-- C6: the frame loop's handling of a per-frame render result
(window.rs:200-208): `Lost` resizes and retries next frame, `OutOfMemory`
terminates the loop, every other error (`Outdated`, `Timeout`) is logged
and the frame skipped, success proceeds. -/
theorem frame_error_handling :
    handleRenderResult (Except.ok ()) = FrameOutcome.proceed ∧
    handleRenderResult (Except.error SwapChainError.Lost) = FrameOutcome.resizeAndRetry ∧
    handleRenderResult (Except.error SwapChainError.OutOfMemory) = FrameOutcome.terminate ∧
    handleRenderResult (Except.error SwapChainError.Outdated) = FrameOutcome.logAndSkip ∧
    handleRenderResult (Except.error SwapChainError.Timeout) = FrameOutcome.logAndSkip :=
  ⟨rfl, rfl, rfl, rfl, rfl⟩

/-- C7: `Scene::remove` is idempotent, and removing an id that is not a key
of the objects map is a complete no-op on the scene state. -/
theorem remove_idempotent (Tag : Type) (Data : Tag → Type)
    (s : Scene Tag Data) (id : ObjectID) :
    (s.remove id).remove id = s.remove id ∧
    (lookupA s.objects id = none → s.remove id = s) := by
  constructor
  · cases hc : containsA s.objects id with
    | false => simp [Scene.remove, hc]
    | true => simp [Scene.remove, hc, insertS_idem]
  · intro h
    simp [Scene.remove, containsA_eq_false h]

/-- Closed witness for the hypothesis-bearing part of the C7 theorem. -/
theorem remove_idempotent_witness :
    lookupA (Scene.new Unit (fun _ => Unit)).objects 5 = none ∧
    (Scene.new Unit (fun _ => Unit)).remove 5 = Scene.new Unit (fun _ => Unit) :=
  ⟨rfl, (remove_idempotent Unit (fun _ => Unit) (Scene.new Unit (fun _ => Unit)) 5).2 rfl⟩

/-- C9: a `render` issued while no texture bind group exists returns before
draining anything: no mount, unmount, camera write or draw event is
emitted, and the objects map and both pending sets are untouched (only the
lazily-created uniforms are recorded). -/
theorem render_early_return (Tag : Type) (Data : Tag → Type)
    (alignment : Nat) (s : Scene Tag Data) (h : s.texCount = 0) :
    s.render alignment =
      some ({ s with uniforms := some 0, debugUniformsCreated := true }, []) ∧
    ∀ s' tr, s.render alignment = some (s', tr) →
      s'.objects = s.objects ∧ s'.added = s.added ∧ s'.removed = s.removed ∧ tr = [] := by
  have h1 : s.render alignment =
      some ({ s with uniforms := some 0, debugUniformsCreated := true }, []) := by
    unfold Scene.render
    simp [h]
  refine ⟨h1, ?_⟩
  intro s' tr hr
  rw [h1] at hr
  cases hr
  exact ⟨rfl, rfl, rfl, rfl⟩

def exObj : Obj Unit (fun _ => Unit) := ⟨(), (), none⟩

/-- A scene that has pending added/removed ids but no uniforms yet. -/
def sW9 : Scene Unit (fun _ => Unit) :=
  { objects := [(1, exObj)]
    uniforms := none
    debugUniformsCreated := false
    added := [1]
    removed := [1]
    textureQueue := 1
    nextId := 2 }

/-- Closed witness for the C9 theorem. -/
theorem render_early_return_witness :
    sW9.texCount = 0 ∧
    sW9.render 256 =
      some ({ sW9 with uniforms := some 0, debugUniformsCreated := true }, []) :=
  ⟨rfl, (render_early_return Unit (fun _ => Unit) 256 sW9 rfl).1⟩

/-- C4 counterexample: the offsets are truncated to the 32-bit
`DynamicOffset` type, so two distinct live indices whose difference is a
multiple of `2 ^ 32 / alignment` receive the same offset (here with the
common alignment 256). -/
theorem offset_truncation_collision :
    set_actor_offset 1 256 = set_actor_offset 16777217 256 ∧
    bind_actor_offset 1 256 = bind_actor_offset 16777217 256 ∧
    (1 : Nat) ≠ 16777217 := by
  refine ⟨by decide, by decide, by decide⟩

/-- C4 amended: distinct indices receive distinct, alignment-multiple
offsets from `set_actor`/`bind_actor` (which compute the same value),
provided the alignment is positive and each `index * alignment` product
fits in 32 bits, so the truncation is the identity. -/
theorem offset_injective_aligned (i j alignment : Nat)
    (ha : 0 < alignment) (hi : i * alignment < U32_MOD) (hj : j * alignment < U32_MOD)
    (hij : i ≠ j) :
    set_actor_offset i alignment ≠ set_actor_offset j alignment ∧
    set_actor_offset i alignment % alignment = 0 ∧
    set_actor_offset i alignment = bind_actor_offset i alignment := by
  unfold set_actor_offset bind_actor_offset
  rw [Nat.mod_eq_of_lt hi, Nat.mod_eq_of_lt hj]
  refine ⟨?_, Nat.mul_mod_left i alignment, rfl⟩
  intro h
  exact hij (Nat.eq_of_mul_eq_mul_right ha h)

/-- C10: `add_texture` stores the new bind group at index `len()` but
returns `len() + 1`, an index that does not address the texture just
added (it is out of range for the grown vector as well); `bind_texture`
indexes `texture_bind_groups` without a bounds check, so it panics
(modelled as `none`) for any index not below the vector length; hence a
`render` that reaches the draw loop over an object whose
`TextureMaterial` carries such a `texture_id` panics instead of
no-opping or binding the placeholder. -/
theorem add_texture_id_mismatch_and_bind_panic :
    (∀ (τ : Type) (tbgs : List τ) (bg : τ),
      (add_texture tbgs bg).2 = tbgs.length + 1 ∧
      (add_texture tbgs bg).1.get? tbgs.length = some bg ∧
      (add_texture tbgs bg).1.get? (add_texture tbgs bg).2 = none) ∧
    (∀ nTex index alignment : Nat, nTex ≤ index →
      bind_texture nTex index alignment = none) ∧
    (∀ (Tag : Type) (Data : Tag → Type) (alignment : Nat) (s : Scene Tag Data)
      (id : ObjectID) (o : Obj Tag Data) (tid : Nat),
      lookupA s.objects id = some o →
      o.material = some (Material.texture tid) →
      s.texCount ≤ tid → s.texCount ≠ 0 → id ∉ s.removed →
      s.render alignment = none) := by
  refine ⟨?_, ?_, ?_⟩
  · intro τ tbgs bg
    refine ⟨rfl, ?_, ?_⟩
    · simp [add_texture]
    · simp [add_texture]
  · intro nTex index alignment h
    simp [bind_texture, Nat.not_lt.mpr h]
  · intro Tag Data alignment s id o tid hlook hmat hoob hn hnr
    have hlook0 : lookupA (drainRemoved s.objects s.removed).1 id = some o := by
      rw [lookupA_drainRemoved]
      simp [hnr, hlook]
    have hnone :
        drawObjects alignment s.texCount (drainRemoved s.objects s.removed).1 = none :=
      drawObjects_none_of_mem alignment s.texCount (lookupA_some_mem hlook0)
        (drawObject_texture_oob hmat hoob)
    simp only [Scene.render]
    rw [if_neg hn]
    simp only [hnone]

/-- A scene holding one object whose texture id (5) exceeds the single
existing texture bind group. -/
def sTexOob : Scene Unit (fun _ => Unit) :=
  { objects := [(1, ⟨(), (), some (Material.texture 5)⟩)]
    uniforms := some 1
    debugUniformsCreated := true
    added := []
    removed := []
    textureQueue := 0
    nextId := 2 }

/-- Closed witness for the C10 theorem. -/
theorem add_texture_id_mismatch_and_bind_panic_witness :
    ((add_texture ([0] : List Nat) 7).2 = 2 ∧
      (add_texture ([0] : List Nat) 7).1.get? 1 = some 7 ∧
      (add_texture ([0] : List Nat) 7).1.get? 2 = none) ∧
    bind_texture 1 5 256 = none ∧
    sTexOob.render 256 = none := by
  refine ⟨?_, ?_, ?_⟩
  · exact add_texture_id_mismatch_and_bind_panic.1 Nat [0] 7
  · exact add_texture_id_mismatch_and_bind_panic.2.1 1 5 256 (by decide)
  · exact add_texture_id_mismatch_and_bind_panic.2.2 Unit (fun _ => Unit) 256 sTexOob
      1 ⟨(), (), some (Material.texture 5)⟩ 5 rfl rfl (by decide) (by decide)
      (by decide)

/-- A reachable state in which the only live object carries ObjectID 2048
(obtained after 2048 `add` calls, the first 2047 objects having been
removed and drained). -/
def sBigId : Scene Unit (fun _ => Unit) :=
  { objects := [(2048, exObj)]
    uniforms := some 1
    debugUniformsCreated := true
    added := []
    removed := []
    textureQueue := 0
    nextId := 2049 }

/-- C1 (code bug): `Scene::render` passes `*id as _` — the raw, sparse,
unbounded `ObjectID` — to `set_actor`/`bind_actor`, not a dense per-slot
index; the resulting offset `id * alignment` for the live object with id
2048 equals `MAX_ACTORS * alignment`, one full slot past the end of the
`MAX_ACTORS`-slot actor buffer, so a live object's slot does not stay
inside the fixed-size buffer. -/
theorem render_offset_uses_raw_object_id :
    sBigId.render 256 =
      some (sBigId,
        [Event.writeCamera, Event.writeDebugCamera,
          Event.setActor 2048 (set_actor_offset 2048 256),
          Event.bindActor 2048 (bind_actor_offset 2048 256),
          Event.bindTexture 0, Event.draw 2048]) ∧
    set_actor_offset 2048 256 = MAX_ACTORS * 256 ∧
    MAX_ACTORS * 256 ≤ set_actor_offset 2048 256 :=
  ⟨rfl, by decide, by decide⟩

/-- C8: `with_object_mut::<T>` (and `with_object::<T>`) on an id that is
absent, or whose stored object's dynamic type is not `T`, never invokes
the handler and leaves the scene (objects map included) unchanged; both
functions are total, so no panic. -/
theorem with_object_type_mismatch (Tag : Type) (Data : Tag → Type)
    [DecidableEq Tag] (s : Scene Tag Data) (T : Tag) (id : ObjectID)
    (handler : Data T → Data T)
    (h : lookupA s.objects id = none ∨
      ∃ o, lookupA s.objects id = some o ∧ o.tag ≠ T) :
    s.withObjectMut T id handler = (s, false) ∧ s.withObject T id = false := by
  rcases h with h | ⟨o, ho, hne⟩
  · constructor <;> simp [Scene.withObjectMut, Scene.withObject, h]
  · constructor
    · simp [Scene.withObjectMut, ho, hne]
    · simp [Scene.withObject, ho, hne]

/-- A scene whose only object (id 1) has dynamic type tag `true`. -/
def wrongTypeScene : Scene Bool (fun _ => Nat) :=
  { objects := [(1, ⟨true, 0, none⟩)]
    uniforms := none
    debugUniformsCreated := false
    added := [1]
    removed := []
    textureQueue := 1
    nextId := 2 }

/-- Closed witness for the C8 theorem: a type-mismatched access (stored tag
`true`, requested tag `false`) and an absent-id access, both no-ops. -/
theorem with_object_type_mismatch_witness :
    (wrongTypeScene.withObjectMut false 1 (fun n => n + 1) = (wrongTypeScene, false) ∧
      wrongTypeScene.withObject false 1 = false) ∧
    (wrongTypeScene.withObjectMut false 2 (fun n => n + 1) = (wrongTypeScene, false) ∧
      wrongTypeScene.withObject false 2 = false) :=
  ⟨with_object_type_mismatch Bool (fun _ => Nat) wrongTypeScene false 1 (fun n => n + 1)
      (Or.inr ⟨⟨true, 0, none⟩, rfl, by decide⟩),
    with_object_type_mismatch Bool (fun _ => Nat) wrongTypeScene false 2 (fun n => n + 1)
      (Or.inl rfl)⟩

theorem remove_nextId {Tag : Type} {Data : Tag → Type}
    (s : Scene Tag Data) (id : ObjectID) : (s.remove id).nextId = s.nextId := by
  unfold Scene.remove
  split <;> rfl

theorem runOps_ids_lb {Tag : Type} {Data : Tag → Type}
    (s : Scene Tag Data) (ops : List (Op Tag Data)) :
    ∀ i ∈ (runOps s ops).2, s.nextId ≤ i := by
  induction ops generalizing s with
  | nil =>
    intro i hi
    simp [runOps] at hi
  | cons op rest ih =>
    cases op with
    | add o =>
      intro i hi
      simp only [runOps, List.mem_cons] at hi
      rcases hi with rfl | hi
      · exact le_refl _
      · exact le_trans (Nat.le_succ _) (ih (s.add o).2 i hi)
    | remove id =>
      intro i hi
      simp only [runOps] at hi
      have h := ih (s.remove id) i hi
      rwa [remove_nextId] at h

theorem runOps_ids_sorted {Tag : Type} {Data : Tag → Type}
    (s : Scene Tag Data) (ops : List (Op Tag Data)) :
    List.Sorted (· < ·) (runOps s ops).2 := by
  induction ops generalizing s with
  | nil => simp [runOps]
  | cons op rest ih =>
    cases op with
    | add o =>
      simp only [runOps]
      rw [List.sorted_cons]
      constructor
      · intro b hb
        exact lt_of_lt_of_le (Nat.lt_succ_self _) (runOps_ids_lb (s.add o).2 rest b hb)
      · exact ih _
    | remove id =>
      simpa [runOps] using ih (s.remove id)

theorem runOps_append {Tag : Type} {Data : Tag → Type}
    (s : Scene Tag Data) (l₁ l₂ : List (Op Tag Data)) :
    runOps s (l₁ ++ l₂) =
      ((runOps (runOps s l₁).1 l₂).1,
        (runOps s l₁).2 ++ (runOps (runOps s l₁).1 l₂).2) := by
  induction l₁ generalizing s with
  | nil => simp [runOps]
  | cons op rest ih =>
    cases op with
    | add o => simp [runOps, ih]
    | remove id => simp [runOps, ih]

/-- C3: over any interleaving of `add` and `remove` calls, the ids the
`add` calls return are strictly increasing (hence pairwise distinct), and
once an id has been returned, no `add` issued after a `remove` of that id
ever returns it again. -/
theorem add_ids_strictly_increasing (Tag : Type) (Data : Tag → Type)
    (s : Scene Tag Data) (ops : List (Op Tag Data)) :
    List.Sorted (· < ·) (runOps s ops).2 ∧
    (runOps s ops).2.Nodup ∧
    (∀ (ops₁ : List (Op Tag Data)) (id : ObjectID) (ops₂ : List (Op Tag Data)),
      ops = ops₁ ++ Op.remove id :: ops₂ →
      id ∈ (runOps s ops₁).2 →
      id ∉ (runOps ((runOps s ops₁).1.remove id) ops₂).2) := by
  have hs := runOps_ids_sorted s ops
  refine ⟨hs, hs.nodup, ?_⟩
  intro ops₁ id ops₂ hops hmem
  subst hops
  have hnd := (runOps_ids_sorted s (ops₁ ++ Op.remove id :: ops₂)).nodup
  rw [runOps_append] at hnd
  have hd := List.disjoint_of_nodup_append (by simpa using hnd)
  intro hcon
  exact hd hmem hcon

/-- Closed witness for the C3 theorem. -/
theorem add_ids_strictly_increasing_witness :
    List.Sorted (· < ·)
      (runOps (Scene.new Unit (fun _ => Unit))
        [Op.add exObj, Op.remove 1, Op.add exObj]).2 ∧
    1 ∈ (runOps (Scene.new Unit (fun _ => Unit)) [Op.add exObj]).2 ∧
    1 ∉ (runOps ((runOps (Scene.new Unit (fun _ => Unit)) [Op.add exObj]).1.remove 1)
        [Op.add exObj]).2 :=
  ⟨(add_ids_strictly_increasing Unit (fun _ => Unit) (Scene.new Unit (fun _ => Unit))
      [Op.add exObj, Op.remove 1, Op.add exObj]).1,
    by decide,
    (add_ids_strictly_increasing Unit (fun _ => Unit) (Scene.new Unit (fun _ => Unit))
      [Op.add exObj, Op.remove 1, Op.add exObj]).2.2 [Op.add exObj] 1 [Op.add exObj]
      rfl (by decide)⟩

theorem isLifecycle_of_isMount {e : Event} (h : e.isMount = true) :
    e.isLifecycle = true := by
  simp [Event.isLifecycle, h]

theorem isLifecycle_of_isUnmount {e : Event} (h : e.isUnmount = true) :
    e.isLifecycle = true := by
  simp [Event.isLifecycle, h]

theorem not_lifecycle_of_drawPhase {e : Event} (h : e.isDrawPhase = true) :
    e.isLifecycle = false := by
  cases e <;> simp_all [Event.isDrawPhase, Event.isLifecycle, Event.isMount, Event.isUnmount]

theorem not_mem_of_all_shape {l : List Event} {p : Event → Bool} {e : Event}
    (hall : ∀ x ∈ l, p x = true) (he : p e = false) : e ∉ l := by
  intro hmem
  rw [hall e hmem] at he
  simp at he

/-- C5: in every render call that reaches the draw phase, the trace splits
into a prefix of lifecycle events (all pending mounts and unmounts) and a
suffix that starts with the single camera-buffer write and contains no
lifecycle event; the `SceneUniforms` camera buffer is written exactly once
in the whole call, independent of the number of objects drawn. -/
theorem render_phase_order (Tag : Type) (Data : Tag → Type)
    (alignment : Nat) (s s' : Scene Tag Data) (tr : List Event)
    (hn : s.texCount ≠ 0) (hr : s.render alignment = some (s', tr)) :
    ∃ pre post, tr = pre ++ post ∧
      (∀ e ∈ pre, e.isLifecycle = true) ∧
      (∀ e ∈ post, e.isLifecycle = false) ∧
      post.head? = some Event.writeCamera ∧
      tr.count Event.writeCamera = 1 := by
  simp only [Scene.render] at hr
  rw [if_neg hn] at hr
  cases hdo : drawObjects alignment s.texCount (drainRemoved s.objects s.removed).1 with
  | none =>
    rw [hdo] at hr
    exact absurd hr (by simp)
  | some drawEvs =>
    rw [hdo] at hr
    simp only [Option.some.injEq, Prod.mk.injEq] at hr
    obtain ⟨hs', htr⟩ := hr
    subst htr
    refine ⟨drainAdded s.objects s.added ++ (drainRemoved s.objects s.removed).2,
      Event.writeCamera :: Event.writeDebugCamera :: drawEvs, by simp, ?_, ?_, rfl, ?_⟩
    · intro e he
      rcases List.mem_append.mp he with h1 | h2
      · exact isLifecycle_of_isMount (drainAdded_all_mount s.objects s.added e h1)
      · exact isLifecycle_of_isUnmount (drainRemoved_all_unmount s.objects s.removed e h2)
    · intro e he
      rcases List.mem_cons.mp he with rfl | he
      · rfl
      rcases List.mem_cons.mp he with rfl | he
      · rfl
      exact not_lifecycle_of_drawPhase (drawObjects_events_drawPhase hdo e he)
    · have h1 : (drainAdded s.objects s.added).count Event.writeCamera = 0 :=
        List.count_eq_zero.mpr
          (not_mem_of_all_shape (drainAdded_all_mount s.objects s.added) rfl)
      have h2 : ((drainRemoved s.objects s.removed).2).count Event.writeCamera = 0 :=
        List.count_eq_zero.mpr
          (not_mem_of_all_shape (drainRemoved_all_unmount s.objects s.removed) rfl)
      have h3 : drawEvs.count Event.writeCamera = 0 :=
        List.count_eq_zero.mpr
          (not_mem_of_all_shape (drawObjects_events_drawPhase hdo) rfl)
      simp [List.count_append, List.count_cons, h1, h2, h3]

/-- A scene with one basic-material object and one texture bind group. -/
def sOneObj : Scene Unit (fun _ => Unit) :=
  { objects := [(1, exObj)]
    uniforms := some 1
    debugUniformsCreated := true
    added := [1]
    removed := []
    textureQueue := 0
    nextId := 2 }

/-- The trace `sOneObj.render 256` produces. -/
def trOneObj : List Event :=
  [Event.mount 1, Event.writeCamera, Event.writeDebugCamera,
    Event.setActor 1 256, Event.bindActor 1 256, Event.bindTexture 0, Event.draw 1]

/-- Closed witness for the C5 theorem. -/
theorem render_phase_order_witness :
    sOneObj.texCount ≠ 0 ∧
    (∃ pre post, trOneObj = pre ++ post ∧
      (∀ e ∈ pre, e.isLifecycle = true) ∧
      (∀ e ∈ post, e.isLifecycle = false) ∧
      post.head? = some Event.writeCamera ∧
      trOneObj.count Event.writeCamera = 1) :=
  ⟨by decide,
    render_phase_order Unit (fun _ => Unit) 256 sOneObj
      { sOneObj with added := [] } trOneObj (by decide) rfl⟩

theorem remove_objects {Tag : Type} {Data : Tag → Type}
    (s : Scene Tag Data) (id : ObjectID) : (s.remove id).objects = s.objects := by
  unfold Scene.remove
  split <;> rfl

theorem remove_added {Tag : Type} {Data : Tag → Type}
    (s : Scene Tag Data) (id : ObjectID) : (s.remove id).added = s.added := by
  unfold Scene.remove
  split <;> rfl

theorem remove_texCount {Tag : Type} {Data : Tag → Type}
    (s : Scene Tag Data) (id : ObjectID) : (s.remove id).texCount = s.texCount := by
  unfold Scene.remove
  split <;> rfl

theorem remove_removed_of_contains {Tag : Type} {Data : Tag → Type}
    {s : Scene Tag Data} {id : ObjectID} (h : containsA s.objects id = true) :
    (s.remove id).removed = insertS s.removed id := by
  simp [Scene.remove, h]

theorem insertA_of_not_contains {Tag : Type} {Data : Tag → Type}
    {l : List (ObjectID × Obj Tag Data)} {id : ObjectID} {o : Obj Tag Data}
    (h : containsA l id = false) : insertA l id o = l ++ [(id, o)] := by
  simp [insertA, h]

theorem drainAdded_count_mount {Tag : Type} {Data : Tag → Type}
    (objs : List (ObjectID × Obj Tag Data)) (l : List ObjectID) (id : ObjectID) :
    (drainAdded objs l).count (Event.mount id) =
      if containsA objs id = true then l.count id else 0 := by
  induction l with
  | nil => simp [drainAdded]
  | cons a rest ih =>
    cases hc : containsA objs a with
    | false =>
      have hrw : drainAdded objs (a :: rest) = drainAdded objs rest := by
        simp [drainAdded, hc]
      rw [hrw, ih]
      by_cases hid : a = id
      · subst hid
        simp [hc]
      · by_cases hco : containsA objs id = true <;>
          simp [hco, List.count_cons, hid, Ne.symm hid]
    | true =>
      have hrw : drainAdded objs (a :: rest) = Event.mount a :: drainAdded objs rest := by
        simp [drainAdded, hc]
      rw [hrw, List.count_cons, ih]
      by_cases hid : a = id
      · subst hid
        simp [hc, List.count_cons]
      · by_cases hco : containsA objs id = true <;>
          simp [hco, List.count_cons, hid, Ne.symm hid]

theorem drainRemoved_count_unmount {Tag : Type} {Data : Tag → Type}
    (objs : List (ObjectID × Obj Tag Data)) (l : List ObjectID) (id : ObjectID)
    (hnd : l.Nodup) :
    ((drainRemoved objs l).2).count (Event.unmount id) =
      if id ∈ l ∧ containsA objs id = true then 1 else 0 := by
  induction l generalizing objs with
  | nil => simp [drainRemoved]
  | cons a rest ih =>
    obtain ⟨hna, hnd'⟩ := List.nodup_cons.mp hnd
    cases hc : containsA objs a with
    | false =>
      have hrw : (drainRemoved objs (a :: rest)).2 = (drainRemoved objs rest).2 := by
        simp [drainRemoved, hc]
      rw [hrw, ih objs hnd']
      by_cases hid : id = a
      · subst hid
        simp [hc, hna]
      · simp [List.mem_cons, hid]
    | true =>
      have hrw : (drainRemoved objs (a :: rest)).2 =
          Event.unmount a :: (drainRemoved (removeA objs a) rest).2 := by
        simp [drainRemoved, hc]
      rw [hrw, List.count_cons, ih (removeA objs a) hnd', containsA_removeA]
      by_cases hid : id = a
      · subst hid
        simp [hna, hc]
      · simp [hid, Ne.symm hid, List.mem_cons]

/-- C2 amended: an object added and removed in the same tick is not
skipped by the next completed render's drain phase: it receives exactly
one mount call and then exactly one unmount call in that render, and
afterwards its id is absent from the registry (`get` returns `None`). -/
theorem same_tick_add_remove_one_mount_unmount (Tag : Type) (Data : Tag → Type)
    (s : Scene Tag Data) (o : Obj Tag Data) (alignment : Nat)
    (s' : Scene Tag Data) (tr : List Event)
    (hfresh : lookupA s.objects s.nextId = none)
    (hadded : s.nextId ∉ s.added)
    (hrem : s.nextId ∉ s.removed)
    (hndrem : s.removed.Nodup)
    (hn : s.texCount ≠ 0)
    (hr : ((s.add o).2.remove s.nextId).render alignment = some (s', tr)) :
    tr.count (Event.mount s.nextId) = 1 ∧
    tr.count (Event.unmount s.nextId) = 1 ∧
    lookupA s'.objects s.nextId = none := by
  have hobj1 : (s.add o).2.objects = s.objects ++ [(s.nextId, o)] :=
    insertA_of_not_contains (containsA_eq_false hfresh)
  have hlook1 : lookupA (s.add o).2.objects s.nextId = some o := by
    rw [hobj1, lookupA_append_of_none _ hfresh]
    simp [lookupA]
  have hcont1 : containsA (s.add o).2.objects s.nextId = true := by
    simp [containsA, hlook1]
  have hobj2 : ((s.add o).2.remove s.nextId).objects = s.objects ++ [(s.nextId, o)] := by
    rw [remove_objects, hobj1]
  have hadded2 : ((s.add o).2.remove s.nextId).added = s.added ++ [s.nextId] := by
    rw [remove_added]
    exact insertS_of_not_mem hadded
  have hrem2 : ((s.add o).2.remove s.nextId).removed = s.removed ++ [s.nextId] := by
    rw [remove_removed_of_contains hcont1]
    exact insertS_of_not_mem hrem
  have hcont2 : containsA (s.objects ++ [(s.nextId, o)]) s.nextId = true := by
    rw [← hobj1]
    exact hcont1
  have ht2 : ((s.add o).2.remove s.nextId).texCount = s.texCount :=
    remove_texCount _ _
  simp only [Scene.render] at hr
  rw [ht2, if_neg hn, hobj2, hadded2, hrem2] at hr
  cases hdo : drawObjects alignment s.texCount
      (drainRemoved (s.objects ++ [(s.nextId, o)]) (s.removed ++ [s.nextId])).1 with
  | none =>
    rw [hdo] at hr
    exact absurd hr (by simp)
  | some drawEvs =>
    rw [hdo] at hr
    simp only [Option.some.injEq, Prod.mk.injEq] at hr
    obtain ⟨hs', htr⟩ := hr
    subst htr
    have hnd2 : (s.removed ++ [s.nextId]).Nodup := by
      simp [List.nodup_append, hndrem, hrem]
    refine ⟨?_, ?_, ?_⟩
    · have hm : (drainAdded (s.objects ++ [(s.nextId, o)]) (s.added ++ [s.nextId])).count
          (Event.mount s.nextId) = 1 := by
        rw [drainAdded_count_mount, if_pos hcont2, List.count_append]
        simp [List.count_eq_zero.mpr hadded]
      have hu0 : ((drainRemoved (s.objects ++ [(s.nextId, o)])
          (s.removed ++ [s.nextId])).2).count (Event.mount s.nextId) = 0 :=
        List.count_eq_zero.mpr
          (not_mem_of_all_shape (drainRemoved_all_unmount _ _) rfl)
      have hd0 : drawEvs.count (Event.mount s.nextId) = 0 :=
        List.count_eq_zero.mpr
          (not_mem_of_all_shape (drawObjects_events_drawPhase hdo) rfl)
      simp [List.count_append, List.count_cons, hm, hu0, hd0]
    · have hm0 : (drainAdded (s.objects ++ [(s.nextId, o)]) (s.added ++ [s.nextId])).count
          (Event.unmount s.nextId) = 0 :=
        List.count_eq_zero.mpr
          (not_mem_of_all_shape (drainAdded_all_mount _ _) rfl)
      have hu : ((drainRemoved (s.objects ++ [(s.nextId, o)])
          (s.removed ++ [s.nextId])).2).count (Event.unmount s.nextId) = 1 := by
        rw [drainRemoved_count_unmount _ _ _ hnd2]
        simp [hcont2]
      have hd0 : drawEvs.count (Event.unmount s.nextId) = 0 :=
        List.count_eq_zero.mpr
          (not_mem_of_all_shape (drawObjects_events_drawPhase hdo) rfl)
      simp [List.count_append, List.count_cons, hm0, hu, hd0]
    · rw [← hs']
      show lookupA (drainRemoved (s.objects ++ [(s.nextId, o)])
        (s.removed ++ [s.nextId])).1 s.nextId = none
      rw [lookupA_drainRemoved]
      simp

/-- A scene that has a texture bind group, ready to reach the drain phase. -/
def sReady : Scene Unit (fun _ => Unit) :=
  { objects := []
    uniforms := some 1
    debugUniformsCreated := true
    added := []
    removed := []
    textureQueue := 0
    nextId := 1 }

/-- C2 counterexample: adding an object and removing it in the same tick,
then rendering, yields one mount call and one unmount call for it — not
zero as claimed (the `added` drain still finds the object in the map
because `remove` only marks the id). -/
theorem same_tick_add_remove_counterexample :
    (((sReady.add exObj).2.remove 1).render 256).map
        (fun r => (r.2.count (Event.mount 1), r.2.count (Event.unmount 1),
          (lookupA r.1.objects 1).isSome))
      = some (1, 1, false) := by
  decide

/-- The scene left after the same-tick add/remove scenario's render. -/
def sAfterSameTick : Scene Unit (fun _ => Unit) :=
  { objects := []
    uniforms := some 1
    debugUniformsCreated := true
    added := []
    removed := []
    textureQueue := 0
    nextId := 2 }

/-- The trace of the same-tick add/remove scenario's render. -/
def trSameTick : List Event :=
  [Event.mount 1, Event.unmount 1, Event.writeCamera, Event.writeDebugCamera]

/-- Closed witness for the C2 amended theorem. -/
theorem same_tick_add_remove_one_mount_unmount_witness :
    trSameTick.count (Event.mount 1) = 1 ∧
    trSameTick.count (Event.unmount 1) = 1 ∧
    lookupA sAfterSameTick.objects 1 = none :=
  same_tick_add_remove_one_mount_unmount Unit (fun _ => Unit) sReady exObj 256
    sAfterSameTick trSameTick rfl (by decide) (by decide) List.nodup_nil
    (by decide) rfl

/-- Closed witness for the C4 amended theorem. -/
theorem offset_injective_aligned_witness :
    0 < 256 ∧ 1 * 256 < U32_MOD ∧ 2 * 256 < U32_MOD ∧ (1 : Nat) ≠ 2 ∧
    (set_actor_offset 1 256 ≠ set_actor_offset 2 256 ∧
      set_actor_offset 1 256 % 256 = 0 ∧
      set_actor_offset 1 256 = bind_actor_offset 1 256) :=
  ⟨by decide, by decide, by decide, by decide,
    offset_injective_aligned 1 2 256 (by decide) (by decide) (by decide) (by decide)⟩

end Byd
